import Mathlib

/-!
Shallow embedding of the serpentines repository (Windows cursor-trail
overlay scaffold, Rust) and proofs about its specification.

Modelling conventions:
- Win32 calls are modelled by an explicit environment (`Overlay.WinEnv`)
  that fixes the outcome of each OS call: the monitor list reported by
  EnumDisplayMonitors, the per-monitor results of GetMonitorInfoW and
  GetDpiForMonitor, the handle returned by each CreateWindowExW call, and
  the success of SetWindowPos / SetLayeredWindowAttributes per handle.
- Rust i32 is modelled as Int (monitor coordinates stay far below the i32
  bounds, so two's-complement wrap-around never matters here), u32 as Nat.
- The HashMap of overlays is modelled as an association list with distinct
  keys; the reconciliation loops of refresh_overlays become structural
  recursions over that list with the same per-entry behaviour.
- Window creation / destruction side effects are recorded in an event
  trace (`Overlay.WinEvent`) so handle-leak properties can be stated.
-/

namespace Serpentines

/-- MonitorRect from crates/serpentines-platform/src/lib.rs. -/
structure MonitorRect where
  x : Int
  y : Int
  width : Int
  height : Int
  dpi : Nat
deriving DecidableEq, Repr

/-- Win32 RECT (left/top/right/bottom). -/
structure RECT where
  left : Int
  top : Int
  right : Int
  bottom : Int
deriving DecidableEq, Repr

/-- Win32 message and hit-test constants used by the sources. -/
def WM_NCHITTEST : Nat := 132

def WM_DEVICECHANGE : Nat := 537

def WM_DISPLAYCHANGE : Nat := 126

def WM_DPICHANGED : Nat := 736

def WM_SETTINGCHANGE : Nat := 26

def WM_DESTROY : Nat := 2

def WM_QUIT : Nat := 18

/-- Hit-test code returned for a click-through window; the source writes
the constant cast `HTTRANSPARENT as isize`. -/
def HTTRANSPARENT : Int := -1

def DBT_DEVICEARRIVAL : Nat := 32768

def DBT_DEVICEREMOVECOMPLETE : Nat := 32772

def DBT_DEVNODES_CHANGED : Nat := 7

/-! Core engine, from crates/serpentines-core/src/lib.rs.  The f32 fields
are modelled as Float; no arithmetic is ever performed on them. -/

namespace Core

structure Vec2 where
  x : Float
  y : Float

structure Vec4 where
  x : Float
  y : Float
  z : Float
  w : Float

structure Particle where
  pos : Vec2
  vel : Vec2
  age : Float
  lifetime : Float

structure TrailPreset where
  name : String
  max_particles : Nat
  emission_rate : Float
  decay_seconds : Float
  color_start : Vec4
  color_end : Vec4

/-- Default::default() for TrailPreset. -/
def TrailPreset.default : TrailPreset :=
  { name := "Default"
    max_particles := 4096
    emission_rate := 120.0
    decay_seconds := 0.6
    color_start := ⟨1.0, 1.0, 1.0, 1.0⟩
    color_end := ⟨1.0, 1.0, 1.0, 0.0⟩ }

structure EngineConfig where
  preset : TrailPreset

/-- Default::default() for EngineConfig. -/
def EngineConfig.default : EngineConfig :=
  { preset := TrailPreset.default }

/-- TrailEngine: basic engine state placeholder. -/
structure TrailEngine where
  config : EngineConfig

/-- TrailEngine::new. -/
def TrailEngine.new (config : EngineConfig) : TrailEngine :=
  { config := config }

/-- TrailEngine::update: the body is an empty stub (a TODO comment), so the
state is returned unchanged. -/
def TrailEngine.update (engine : TrailEngine) (_dt : Float) : TrailEngine :=
  engine

end Core

/-! Reconciling overlay manager, from crates/serpentines-win/src/overlay.rs. -/

namespace Overlay

/-- Window lifetime side effects recorded by the model: one event per
CreateWindowExW that returns a handle and one per DestroyWindow call. -/
inductive WinEvent where
  | created (hwnd : Int)
  | destroyed (hwnd : Int)
deriving DecidableEq, Repr

/-- One monitor reported to the EnumDisplayMonitors callback, together with
the outcomes of the per-monitor queries: `info?` is the rcMonitor rectangle
when GetMonitorInfoW succeeds (none = the call failed), `dpi?` is the
(horizontal, vertical) pair written by GetDpiForMonitor when it succeeds
(none = it returned an error). -/
structure EnumEntry where
  handle : Int
  info? : Option RECT
  dpi? : Option (Nat × Nat)
deriving DecidableEq, Repr

/-- Environment fixing the outcome of every Win32 call a refresh makes:
`enumOk` is the return value of EnumDisplayMonitors, `entries` the monitors
it reports, `createResult n` the handle produced by the n-th CreateWindowExW
call of the refresh (none = creation failed), and `setPosOk` /
`setLayeredOk` the success of SetWindowPos / SetLayeredWindowAttributes on a
given window handle. -/
structure WinEnv where
  enumOk : Bool
  entries : List EnumEntry
  createResult : Nat → Option Int
  setPosOk : Int → Bool
  setLayeredOk : Int → Bool

/-- DisplayOverlay from overlay.rs: the raw window handle plus the monitor
rect it was last positioned to. -/
structure DisplayOverlay where
  window_handle_value : Int
  rect : MonitorRect
deriving DecidableEq, Repr

/-- WinOverlayManager from overlay.rs.  The HashMap of overlays keyed by
monitor handle is modelled as an association list with distinct keys. -/
structure WinOverlayManager where
  instance_handle_value : Int
  class_name_pointer : Int
  overlays : List (Int × DisplayOverlay)
  monitor_rects : List MonitorRect
deriving DecidableEq

/-- Body of enum_proc for one reported monitor: skip the monitor when
GetMonitorInfoW fails (the callback returns TRUE and continues); otherwise
record its handle and rect, with the dpi falling back to 96 when
GetDpiForMonitor fails. -/
def enum_proc (entry : EnumEntry) : Option (Int × MonitorRect) :=
  match entry.info? with
  | none => none
  | some rect =>
    let width := rect.right - rect.left
    let height := rect.bottom - rect.top
    let horizontal_dpi : Nat :=
      match entry.dpi? with
      | some d => d.1
      | none => 96
    some (entry.handle,
      { x := rect.left, y := rect.top, width := width, height := height,
        dpi := horizontal_dpi })

/-- WinOverlayManager::enumerate_monitors: run enum_proc over every
reported monitor and fail when EnumDisplayMonitors reports failure. -/
def enumerate_monitors (env : WinEnv) : Except String (List (Int × MonitorRect)) :=
  if env.enumOk then .ok (env.entries.filterMap enum_proc)
  else .error "EnumDisplayMonitors failed"

/-- First entry of the overlays association list with the given key
(HashMap::get on a map with distinct keys). -/
def lookupOverlay : List (Int × DisplayOverlay) → Int → Option DisplayOverlay
  | [], _ => none
  | (k, ov) :: rest, id => if k = id then some ov else lookupOverlay rest id

/-- WinOverlayManager::destroy_overlay: SetWindowLongPtrW to clear
GWLP_USERDATA (no modelled effect) followed by DestroyWindow (recorded as a
destroyed event; a DestroyWindow error is only logged). -/
def destroy_overlay (overlay : DisplayOverlay) : List WinEvent :=
  [WinEvent.destroyed overlay.window_handle_value]

/-- Removal phase of refresh_overlays: drop (and destroy) every overlay
whose monitor key is absent from the desired set. -/
def removeAbsent : List (Int × DisplayOverlay) → List Int →
    List (Int × DisplayOverlay) × List WinEvent
  | [], _ => ([], [])
  | (k, ov) :: rest, desired =>
    let (rest', evs) := removeAbsent rest desired
    if desired.contains k then ((k, ov) :: rest', evs)
    else (rest', destroy_overlay ov ++ evs)

/-- update_overlay_window: a single SetWindowPos call. -/
def update_overlay_window (env : WinEnv) (window_handle : Int)
    (_rect : MonitorRect) : Except String Unit :=
  if env.setPosOk window_handle then .ok () else .error "SetWindowPos failed"

/-- create_overlay_hwnd: CreateWindowExW, then SetWindowLongPtrW (stores the
manager pointer; no modelled effect), then update_overlay_window, then
SetLayeredWindowAttributes.  The created event is recorded as soon as
CreateWindowExW returns a handle, even when a later step fails and the
function returns an error without handing the handle to the caller. -/
def create_overlay_hwnd (env : WinEnv) (createCount : Nat)
    (rect : MonitorRect) : Except String Int × List WinEvent :=
  match env.createResult createCount with
  | none => (.error "CreateWindowExW failed", [])
  | some window_handle =>
    match update_overlay_window env window_handle rect with
    | .error e => (.error e, [WinEvent.created window_handle])
    | .ok () =>
      if env.setLayeredOk window_handle then
        (.ok window_handle, [WinEvent.created window_handle])
      else
        (.error "SetLayeredWindowAttributes failed",
          [WinEvent.created window_handle])

/-- In-place update `current.rect = *rect` through HashMap::get_mut,
modelled on the association list (the key occurs at most once, so updating
every entry with the key equals updating the one entry). -/
def setOverlayRect : List (Int × DisplayOverlay) → Int → MonitorRect →
    List (Int × DisplayOverlay)
  | [], _, _ => []
  | (k, ov) :: rest, id, rect =>
    (k, if k = id then { ov with rect := rect } else ov) ::
      setOverlayRect rest id rect

/-- Upsert phase of refresh_overlays: walk the enumerated monitors in
order; reposition the overlay of a monitor already in the map, create and
insert an overlay for a new monitor.  An OS failure propagates through the
question-mark operator, leaving the mutations already made in place. -/
def upsertMonitors (env : WinEnv) :
    Nat → List (Int × DisplayOverlay) → List (Int × MonitorRect) →
    Except String Unit × List (Int × DisplayOverlay) × List WinEvent
  | _, ovs, [] => (.ok (), ovs, [])
  | count, ovs, (id, rect) :: rest =>
    match lookupOverlay ovs id with
    | some current =>
      match update_overlay_window env current.window_handle_value rect with
      | .error e => (.error e, ovs, [])
      | .ok () => upsertMonitors env count (setOverlayRect ovs id rect) rest
    | none =>
      match create_overlay_hwnd env count rect with
      | (.ok window_handle, evs) =>
        let (res, ovs', evs') := upsertMonitors env (count + 1)
          (ovs ++ [(id, { window_handle_value := window_handle, rect := rect })]) rest
        (res, ovs', evs ++ evs')
      | (.error e, evs) => (.error e, ovs, evs)

/-- Result of a manager call that can mutate the manager and touch windows:
the returned Result, the manager state after the call, and the window
lifetime events performed. -/
structure CallOutcome where
  result : Except String Unit
  state : WinOverlayManager
  events : List WinEvent

/-- WinOverlayManager::refresh_overlays: enumerate monitors (returning the
error, untouched, when enumeration fails), destroy overlays of vanished
monitors, reposition or create an overlay per enumerated monitor, and on
full success store the enumerated rects in monitor_rects. -/
def refresh_overlays (env : WinEnv) (m : WinOverlayManager) : CallOutcome :=
  match enumerate_monitors env with
  | .error e => { result := .error e, state := m, events := [] }
  | .ok monitors =>
    match removeAbsent m.overlays (monitors.map Prod.fst) with
    | (ovs1, removeEvents) =>
      match upsertMonitors env 0 ovs1 monitors with
      | (.ok _, ovs2, upsertEvents) =>
        { result := .ok ()
          state := { m with overlays := ovs2,
                            monitor_rects := monitors.map Prod.snd }
          events := removeEvents ++ upsertEvents }
      | (.error e, ovs2, upsertEvents) =>
        { result := .error e
          state := { m with overlays := ovs2 }
          events := removeEvents ++ upsertEvents }

/-- WinOverlayManager::teardown_overlays: take the overlay map, destroy
every overlay in it, clear monitor_rects, return Ok. -/
def teardown_overlays (m : WinOverlayManager) : CallOutcome :=
  { result := .ok ()
    state := { m with overlays := [], monitor_rects := [] }
    events := m.overlays.flatMap fun p => destroy_overlay p.2 }

/-- WinOverlayManager::handle_environment_change: rerun refresh_overlays;
an Ok result is logged, an Err is only warned about — either way the state
left by refresh_overlays stands. -/
def handle_environment_change (env : WinEnv) (m : WinOverlayManager)
    (_reason : String) : WinOverlayManager × List WinEvent :=
  let outcome := refresh_overlays env m
  (outcome.state, outcome.events)

/-- OverlayManager::monitors impl for the reconciling manager: clone of the
stored monitor_rects. -/
def WinOverlayManager.monitors (m : WinOverlayManager) :
    Except String (List MonitorRect) :=
  .ok m.monitor_rects

/-- OverlayManager::init impl: refresh_overlays. -/
def WinOverlayManager.init (env : WinEnv) (m : WinOverlayManager) : CallOutcome :=
  refresh_overlays env m

/-- OverlayManager::create_overlays impl: refresh_overlays. -/
def WinOverlayManager.create_overlays (env : WinEnv) (m : WinOverlayManager) :
    CallOutcome :=
  refresh_overlays env m

/-- OverlayManager::destroy_overlays impl: teardown_overlays. -/
def WinOverlayManager.destroy_overlays (m : WinOverlayManager) : CallOutcome :=
  teardown_overlays m

/-- Reason string computed by handle_overlay_window_message for logging. -/
def environment_change_reason (message : Nat) (word_parameter : Nat) : String :=
  if message = WM_DEVICECHANGE then
    if word_parameter = DBT_DEVICEARRIVAL then "device arrival"
    else if word_parameter = DBT_DEVICEREMOVECOMPLETE then "device removal"
    else if word_parameter = DBT_DEVNODES_CHANGED then "device nodes changed"
    else "device change"
  else if message = WM_DISPLAYCHANGE then "display change"
  else if message = WM_DPICHANGED then "dpi change"
  else if message = WM_SETTINGCHANGE then "setting change"
  else "environment change"

/-- LRESULT of a window procedure: either an explicit value or whatever
DefWindowProcW returns for the forwarded message. -/
inductive LResultM where
  | value (v : Int)
  | defWindowProc
deriving DecidableEq, Repr

/-- Observable outcome of one window-procedure invocation: the LRESULT,
the GWLP_USERDATA slot content afterwards (none = null pointer; the manager
state is carried in the slot since the slot points at the manager), whether
handle_environment_change was invoked, and the window events performed. -/
structure WndOutcome where
  lresult : LResultM
  userdata : Option WinOverlayManager
  envChangeInvoked : Bool
  events : List WinEvent

/-- handle_overlay_window_message from overlay.rs.  `userdata` is the
content of the window's GWLP_USERDATA slot (none models a null manager
pointer). -/
def handle_overlay_window_message (env : WinEnv)
    (userdata : Option WinOverlayManager) (message : Nat)
    (word_parameter : Nat) : WndOutcome :=
  if message = WM_NCHITTEST then
    { lresult := .value HTTRANSPARENT, userdata := userdata,
      envChangeInvoked := false, events := [] }
  else if message = WM_DEVICECHANGE ∨ message = WM_DISPLAYCHANGE ∨
      message = WM_DPICHANGED ∨ message = WM_SETTINGCHANGE then
    match userdata with
    | some manager =>
      let (manager', evs) := handle_environment_change env manager
        (environment_change_reason message word_parameter)
      { lresult := .defWindowProc, userdata := some manager',
        envChangeInvoked := true, events := evs }
    | none =>
      { lresult := .defWindowProc, userdata := none,
        envChangeInvoked := false, events := [] }
  else if message = WM_DESTROY then
    { lresult := .defWindowProc, userdata := none,
      envChangeInvoked := false, events := [] }
  else
    { lresult := .defWindowProc, userdata := userdata,
      envChangeInvoked := false, events := [] }

end Overlay

/-! Command channel of crates/serpentines-ui/src/lib.rs.  The crossbeam
channel is modelled as the list of commands sent so far. -/

namespace Ui

inductive UiCommand where
  | Show
deriving DecidableEq, Repr

end Ui

/-! Crate-root Windows glue, from crates/serpentines-win/src/lib.rs. -/

namespace WinLib

/-- Crate-root WinOverlayManager (the stub used by main): a unit struct. -/
structure WinOverlayManager where
deriving DecidableEq

/-- OverlayManager::monitors impl of the stub manager: one rect sized by
GetWindowRect on the desktop window, at origin (0,0), dpi 96.  `desktop` is
the rectangle GetWindowRect reports for GetDesktopWindow. -/
def WinOverlayManager.monitors (desktop : RECT) :
    Except String (List MonitorRect) :=
  .ok [{ x := 0, y := 0, width := desktop.right - desktop.left,
         height := desktop.bottom - desktop.top, dpi := 96 }]

/-- overlay_wnd_proc from lib.rs: HTTRANSPARENT on WM_NCHITTEST, otherwise
DefWindowProcW. -/
def overlay_wnd_proc (msg : Nat) : Overlay.LResultM :=
  if msg = WM_NCHITTEST then .value HTTRANSPARENT else .defWindowProc

/-- One tray menu item: label, enabled flag, and the id handed out by
MenuItem::new. -/
structure MenuItemM where
  label : String
  enabled : Bool
  id : Nat
deriving DecidableEq, Repr

/-- create_tray_icon: builds the menu of exactly two enabled items, in
order "Open Settings" then "Exit", and returns their menu ids (fresh ids
are modelled as 1 and 2).  The 16x16 white icon has no observable role. -/
def create_tray_icon : List MenuItemM × Nat × Nat :=
  let settings_item : MenuItemM := { label := "Open Settings", enabled := true, id := 1 }
  let exit_item : MenuItemM := { label := "Exit", enabled := true, id := 2 }
  ([settings_item, exit_item], settings_item.id, exit_item.id)

/-- show_ui: send UiCommand::Show on the UI command channel. -/
def show_ui (channel : List Ui.UiCommand) : List Ui.UiCommand :=
  channel ++ [Ui.UiCommand.Show]

/-- Action a tray handler takes in response to an event. -/
inductive TrayAction where
  | sendUiShow
  | postQuit
  | ignore
deriving DecidableEq, Repr

/-- Decision logic of the MenuEvent handler installed by
handle_tray_menu_events. -/
def menu_event_action (settings_id exit_id event_id : Nat) : TrayAction :=
  if event_id = settings_id then .sendUiShow
  else if event_id = exit_id then .postQuit
  else .ignore

inductive MouseButtonM where
  | Left
  | Right
  | Middle
deriving DecidableEq, Repr

/-- Tray icon event as the handler of handle_tray_icon_events sees it. -/
inductive TrayIconEventM where
  | Click (button : MouseButtonM)
  | Other
deriving DecidableEq, Repr

/-- Decision logic of the TrayIconEvent handler installed by
handle_tray_icon_events: only a left-button click shows the UI. -/
def tray_icon_event_action : TrayIconEventM → TrayAction
  | .Click .Left => .sendUiShow
  | _ => .ignore

/-- PostQuitMessage(0): a WM_QUIT message lands at the back of the thread's
message queue. -/
def post_quit_message (queue : List Nat) : List Nat :=
  queue ++ [WM_QUIT]

/-- Message pump of run_app over a queue of pending messages: dispatch
messages in order and leave the loop on WM_QUIT.  Returns the dispatched
messages when the loop terminated, none when the queue ran out with the
loop still blocked in WaitMessage. -/
def pump_messages : List Nat → Option (List Nat)
  | [] => none
  | msg :: rest =>
    if msg = WM_QUIT then some []
    else (pump_messages rest).map fun dispatched => msg :: dispatched

end WinLib

/-! Concrete fixtures: environments and manager states used to evaluate the
model on explicit inputs. -/

def rect0 : MonitorRect :=
  { x := 0, y := 0, width := 1920, height := 1080, dpi := 96 }

def rect1 : MonitorRect :=
  { x := 1920, y := 0, width := 1920, height := 1080, dpi := 96 }

/-- An environment with EnumDisplayMonitors failing outright. -/
def envEnumFail : Overlay.WinEnv :=
  { enumOk := false
    entries := []
    createResult := fun _ => none
    setPosOk := fun _ => true
    setLayeredOk := fun _ => true }

/-- A healthy two-display environment (handles 100 and 200). -/
def envGood : Overlay.WinEnv :=
  { enumOk := true
    entries :=
      [{ handle := 100, info? := some ⟨0, 0, 1920, 1080⟩, dpi? := some (96, 96) }
       , { handle := 200, info? := some ⟨1920, 0, 3840, 1080⟩, dpi? := some (96, 96) }]
    createResult := fun n => some (500 + (n : Int))
    setPosOk := fun _ => true
    setLayeredOk := fun _ => true }

/-- The monitor list envGood enumerates. -/
def monitorsW : List (Int × MonitorRect) :=
  [(100, rect0), (200, rect1)]

/-- A single-display environment whose SetWindowPos always fails, so window
setup fails right after CreateWindowExW returns handle 42. -/
def envLeak : Overlay.WinEnv :=
  { enumOk := true
    entries := [{ handle := 100, info? := some ⟨0, 0, 1920, 1080⟩, dpi? := some (96, 96) }]
    createResult := fun _ => some 42
    setPosOk := fun _ => false
    setLayeredOk := fun _ => true }

/-- An empty manager state. -/
def mgr0 : Overlay.WinOverlayManager :=
  { instance_handle_value := 0
    class_name_pointer := 0
    overlays := []
    monitor_rects := [] }

/-- A manager tracking one live monitor (100) and one stale one (999). -/
def mgrStale : Overlay.WinOverlayManager :=
  { instance_handle_value := 0
    class_name_pointer := 0
    overlays := [(100, { window_handle_value := 41, rect := rect0 })
                 , (999, { window_handle_value := 43, rect := rect1 })]
    monitor_rects := [rect0] }

/-- Enumeration entries exercising the GetDpiForMonitor failure path. -/
def entryA : Overlay.EnumEntry :=
  { handle := 100, info? := some ⟨0, 0, 1920, 1080⟩, dpi? := some (120, 120) }

def entryB : Overlay.EnumEntry :=
  { handle := 200, info? := some ⟨1920, 0, 3840, 1080⟩, dpi? := none }

def entryC : Overlay.EnumEntry :=
  { handle := 300, info? := some ⟨0, 1080, 1920, 2160⟩, dpi? := some (144, 144) }

def envDpi : Overlay.WinEnv :=
  { enumOk := true
    entries := [entryA, entryB, entryC]
    createResult := fun n => some (400 + (n : Int))
    setPosOk := fun _ => true
    setLayeredOk := fun _ => true }

/-- The desktop rectangle used for the stub manager's monitors(). -/
def desktopC4 : RECT := ⟨0, 0, 1920, 1080⟩

/-! Proof layer: helper lemmas about the association-list operations of the model. -/

namespace Overlay

/-! Helper lemmas about the association-list operations of the model. -/

theorem lookupOverlay_eq_none_iff (l : List (Int × DisplayOverlay)) (k : Int) :
    lookupOverlay l k = none ↔ k ∉ l.map Prod.fst := by
  induction l with
  | nil => simp [lookupOverlay]
  | cons p rest ih =>
    obtain ⟨k', ov⟩ := p
    by_cases h : k' = k
    · subst h
      simp [lookupOverlay]
    · simp [lookupOverlay, h, ih, Ne.symm h]

theorem lookupOverlay_mem {l : List (Int × DisplayOverlay)} {k : Int}
    {ov : DisplayOverlay} (h : lookupOverlay l k = some ov) : (k, ov) ∈ l := by
  induction l with
  | nil => simp [lookupOverlay] at h
  | cons p rest ih =>
    obtain ⟨k', ov'⟩ := p
    by_cases hk : k' = k
    · subst hk
      simp [lookupOverlay] at h
      subst h
      exact List.mem_cons_self _ _
    · simp [lookupOverlay, hk] at h
      exact List.mem_cons_of_mem _ (ih h)

theorem lookupOverlay_append_of_none {l1 : List (Int × DisplayOverlay)}
    {k : Int} (l2 : List (Int × DisplayOverlay))
    (h : lookupOverlay l1 k = none) :
    lookupOverlay (l1 ++ l2) k = lookupOverlay l2 k := by
  induction l1 with
  | nil => simp
  | cons p rest ih =>
    obtain ⟨k', ov'⟩ := p
    by_cases hk : k' = k
    · simp [lookupOverlay, hk] at h
    · simp [lookupOverlay, hk] at h ⊢
      exact ih h

theorem lookupOverlay_append_of_some {l1 : List (Int × DisplayOverlay)}
    {k : Int} {ov : DisplayOverlay} (l2 : List (Int × DisplayOverlay))
    (h : lookupOverlay l1 k = some ov) :
    lookupOverlay (l1 ++ l2) k = some ov := by
  induction l1 with
  | nil => simp [lookupOverlay] at h
  | cons p rest ih =>
    obtain ⟨k', ov'⟩ := p
    by_cases hk : k' = k <;> simp [lookupOverlay, hk] at h ⊢
    · exact h
    · exact ih h

theorem lookupOverlay_singleton (k : Int) (ov : DisplayOverlay) :
    lookupOverlay [(k, ov)] k = some ov := by
  simp [lookupOverlay]

theorem setOverlayRect_keys (ovs : List (Int × DisplayOverlay)) (id : Int)
    (rect : MonitorRect) :
    (setOverlayRect ovs id rect).map Prod.fst = ovs.map Prod.fst := by
  induction ovs with
  | nil => rfl
  | cons p rest ih =>
    obtain ⟨k, ov⟩ := p
    by_cases h : k = id <;> simp [setOverlayRect, h, ih]

theorem lookup_setOverlayRect_self (ovs : List (Int × DisplayOverlay))
    (id : Int) (rect : MonitorRect) :
    lookupOverlay (setOverlayRect ovs id rect) id =
      (lookupOverlay ovs id).map fun ov => { ov with rect := rect } := by
  induction ovs with
  | nil => rfl
  | cons p rest ih =>
    obtain ⟨k, ov⟩ := p
    by_cases h : k = id <;> simp [setOverlayRect, lookupOverlay, h, ih]

theorem lookup_setOverlayRect_ne (ovs : List (Int × DisplayOverlay))
    {id id' : Int} (rect : MonitorRect) (h : id' ≠ id) :
    lookupOverlay (setOverlayRect ovs id rect) id' = lookupOverlay ovs id' := by
  induction ovs with
  | nil => rfl
  | cons p rest ih =>
    obtain ⟨k, ov⟩ := p
    by_cases hk : k = id
    · subst hk
      simp [setOverlayRect, lookupOverlay, Ne.symm h, ih]
    · by_cases hk' : k = id' <;>
        simp [setOverlayRect, lookupOverlay, hk, hk', h, ih]

theorem removeAbsent_lookup (l : List (Int × DisplayOverlay)) (d : List Int)
    (k : Int) :
    lookupOverlay (removeAbsent l d).1 k =
      if k ∈ d then lookupOverlay l k else none := by
  induction l with
  | nil => simp [removeAbsent, lookupOverlay]
  | cons p rest ih =>
    obtain ⟨k', ov⟩ := p
    by_cases hk : k' = k
    · subst hk
      by_cases hc : k' ∈ d <;> simp [removeAbsent, hc, lookupOverlay, ih]
    · by_cases hc : k' ∈ d <;>
        simp [removeAbsent, hc, lookupOverlay, hk, ih]

theorem removeAbsent_keys_sublist (l : List (Int × DisplayOverlay))
    (d : List Int) :
    ((removeAbsent l d).1.map Prod.fst).Sublist (l.map Prod.fst) := by
  induction l with
  | nil => simp [removeAbsent]
  | cons p rest ih =>
    obtain ⟨k', ov⟩ := p
    simp only [removeAbsent, List.map_cons]
    by_cases hc : d.contains k' = true
    · rw [if_pos hc]
      exact ih.cons₂ k'
    · rw [if_neg hc]
      exact ih.trans (List.sublist_cons_self k' _)

theorem removeAbsent_destroyed_mem {l : List (Int × DisplayOverlay)}
    {d : List Int} {k : Int} {ov : DisplayOverlay} (hmem : (k, ov) ∈ l)
    (habsent : k ∉ d) :
    WinEvent.destroyed ov.window_handle_value ∈ (removeAbsent l d).2 := by
  induction l with
  | nil => simp at hmem
  | cons p rest ih =>
    obtain ⟨k', ov'⟩ := p
    rcases List.mem_cons.mp hmem with hhead | htail
    · obtain ⟨hk, hov⟩ := Prod.mk.injEq .. ▸ hhead
      subst hk
      subst hov
      simp [removeAbsent, habsent, destroy_overlay]
    · by_cases hc : k' ∈ d
      · simp [removeAbsent, hc, destroy_overlay]
        exact ih htail
      · simp [removeAbsent, hc, destroy_overlay]
        exact Or.inr (ih htail)

theorem removeAbsent_events_destroyed {l : List (Int × DisplayOverlay)}
    {d : List Int} {e : WinEvent} (h : e ∈ (removeAbsent l d).2) :
    ∃ hwnd, e = WinEvent.destroyed hwnd := by
  induction l with
  | nil => simp [removeAbsent] at h
  | cons p rest ih =>
    obtain ⟨k, ov⟩ := p
    by_cases hc : k ∈ d
    · simp [removeAbsent, hc, destroy_overlay] at h
      exact ih h
    · simp [removeAbsent, hc, destroy_overlay] at h
      rcases h with h | h
      · exact ⟨ov.window_handle_value, h⟩
      · exact ih h

theorem removeAbsent_nodup {l : List (Int × DisplayOverlay)} (d : List Int)
    (h : (l.map Prod.fst).Nodup) :
    ((removeAbsent l d).1.map Prod.fst).Nodup :=
  List.Nodup.sublist (removeAbsent_keys_sublist l d) h

theorem lookupOverlay_append_single_none {ovs : List (Int × DisplayOverlay)}
    {k id₀ : Int} (new : DisplayOverlay) :
    lookupOverlay (ovs ++ [(id₀, new)]) k = none ↔
      lookupOverlay ovs k = none ∧ k ≠ id₀ := by
  simp [lookupOverlay_eq_none_iff, List.map_append, not_or]

theorem create_overlay_hwnd_ok_events {env : WinEnv} {count : Nat}
    {rect : MonitorRect} {w : Int} {evs : List WinEvent}
    (h : create_overlay_hwnd env count rect = (.ok w, evs)) :
    evs = [WinEvent.created w] := by
  unfold create_overlay_hwnd at h
  cases hc : env.createResult count with
  | none => rw [hc] at h; simp at h
  | some wh =>
    rw [hc] at h
    unfold update_overlay_window at h
    by_cases hp : env.setPosOk wh <;> simp [hp] at h
    by_cases hl : env.setLayeredOk wh <;> simp [hl] at h
    obtain ⟨hw, hevs⟩ := h
    subst hw
    exact hevs.symm

/-- Postcondition of a successful upsert pass: the final overlay list binds
exactly the initial keys plus every processed monitor key, each processed
monitor's entry carries that monitor's rect, keys stay distinct, a window
is created for every monitor that had no overlay, every created handle ends
up tracked, and no window is destroyed. -/
theorem upsertMonitors_ok_spec (env : WinEnv) :
    ∀ (monitors : List (Int × MonitorRect)) (count : Nat)
      (ovs ovs' : List (Int × DisplayOverlay)) (evs : List WinEvent),
      (monitors.map Prod.fst).Nodup →
      upsertMonitors env count ovs monitors = (.ok (), ovs', evs) →
      (∀ id, lookupOverlay ovs' id = none ↔
        (lookupOverlay ovs id = none ∧ id ∉ monitors.map Prod.fst)) ∧
      (∀ id ov, lookupOverlay ovs id = some ov → id ∉ monitors.map Prod.fst →
        lookupOverlay ovs' id = some ov) ∧
      (∀ id r, (id, r) ∈ monitors →
        ∃ ov, lookupOverlay ovs' id = some ov ∧ ov.rect = r) ∧
      ((ovs.map Prod.fst).Nodup → (ovs'.map Prod.fst).Nodup) ∧
      (∀ id, id ∈ monitors.map Prod.fst → lookupOverlay ovs id = none →
        ∃ hwnd, WinEvent.created hwnd ∈ evs) ∧
      (∀ hwnd, WinEvent.created hwnd ∈ evs →
        ∃ id ov, lookupOverlay ovs' id = some ov ∧
          ov.window_handle_value = hwnd) ∧
      (∀ hwnd, WinEvent.destroyed hwnd ∉ evs) := by
  intro monitors
  induction monitors with
  | nil =>
    intro count ovs ovs' evs _ heq
    simp only [upsertMonitors, Prod.mk.injEq, true_and] at heq
    obtain ⟨hovs, hevs⟩ := heq
    subst hovs
    subst hevs
    refine ⟨fun id => by simp, fun id ov h _ => h, ?_, fun h => h, ?_, ?_, ?_⟩
    · intro id r h
      simp at h
    · intro id h
      simp at h
    · intro hwnd h
      simp at h
    · intro hwnd
      simp
  | cons head rest ih =>
    obtain ⟨id₀, r₀⟩ := head
    intro count ovs ovs' evs hnd heq
    simp only [List.map_cons, List.nodup_cons] at hnd
    obtain ⟨hid0, hnd'⟩ := hnd
    simp only [upsertMonitors] at heq
    split at heq
    case _ current hlook =>
      -- a monitor already tracked: SetWindowPos then rect update
      split at heq
      case _ e _ =>
        simp at heq
      case _ hupd =>
        obtain ⟨ih1, ih2, ih3, ih4, ih5, ih6, ih7⟩ :=
          ih count (setOverlayRect ovs id₀ r₀) ovs' evs hnd' heq
        have hselfset : lookupOverlay (setOverlayRect ovs id₀ r₀) id₀ =
            some { current with rect := r₀ } := by
          rw [lookup_setOverlayRect_self, hlook]
          rfl
        refine ⟨?_, ?_, ?_, ?_, ?_, ?_, ih7⟩
        · intro id
          rw [ih1 id]
          constructor
          · rintro ⟨h1, h2⟩
            have hne : id ≠ id₀ := by
              intro h
              subst h
              rw [hselfset] at h1
              exact Option.noConfusion h1
            rw [lookup_setOverlayRect_ne _ _ hne] at h1
            simp only [List.map_cons, List.mem_cons, not_or]
            exact ⟨h1, hne, h2⟩
          · rintro ⟨h1, h2⟩
            simp only [List.map_cons, List.mem_cons, not_or] at h2
            obtain ⟨hne, h2⟩ := h2
            rw [lookup_setOverlayRect_ne _ _ hne]
            exact ⟨h1, h2⟩
        · intro id ov hsome hid
          simp only [List.map_cons, List.mem_cons, not_or] at hid
          obtain ⟨hne, hid⟩ := hid
          refine ih2 id ov ?_ hid
          rw [lookup_setOverlayRect_ne _ _ hne]
          exact hsome
        · intro id r hmem
          rcases List.mem_cons.mp hmem with hhead | htail
          · obtain ⟨hid, hr⟩ := Prod.mk.injEq .. ▸ hhead
            subst hid
            subst hr
            refine ⟨{ current with rect := r }, ?_, rfl⟩
            exact ih2 _ _ hselfset hid0
          · exact ih3 id r htail
        · intro hovnd
          refine ih4 ?_
          rw [setOverlayRect_keys]
          exact hovnd
        · intro id hid hnone
          rcases List.mem_cons.mp hid with hh | ht
          · subst hh
            rw [hlook] at hnone
            exact Option.noConfusion hnone
          · have hne : id ≠ id₀ := fun h => hid0 (h ▸ ht)
            refine ih5 id ht ?_
            rw [lookup_setOverlayRect_ne _ _ hne]
            exact hnone
        · exact ih6
    case _ hlook =>
      -- a newly appearing monitor: create a window and insert it
      split at heq
      case _ w cevs hc =>
        rcases hrec : upsertMonitors env (count + 1)
            (ovs ++ [(id₀, { window_handle_value := w, rect := r₀ })]) rest with
          ⟨res, ovs'', evs'⟩
        rw [hrec] at heq
        simp only [Prod.mk.injEq] at heq
        obtain ⟨hres, hovs, hevs⟩ := heq
        subst hres
        subst hovs
        subst hevs
        have hcevs : cevs = [WinEvent.created w] :=
          create_overlay_hwnd_ok_events hc
        subst hcevs
        obtain ⟨ih1, ih2, ih3, ih4, ih5, ih6, ih7⟩ :=
          ih (count + 1)
            (ovs ++ [(id₀, { window_handle_value := w, rect := r₀ })])
            ovs'' evs' hnd' hrec
        · have hself : lookupOverlay
              (ovs ++ [(id₀, { window_handle_value := w, rect := r₀ })]) id₀ =
              some { window_handle_value := w, rect := r₀ } := by
            rw [lookupOverlay_append_of_none _ hlook]
            exact lookupOverlay_singleton _ _
          refine ⟨?_, ?_, ?_, ?_, ?_, ?_, ?_⟩
          · intro id
            rw [ih1 id, lookupOverlay_append_single_none]
            simp only [List.map_cons, List.mem_cons, not_or]
            tauto
          · intro id ov hsome hid
            simp only [List.map_cons, List.mem_cons, not_or] at hid
            obtain ⟨hne, hid⟩ := hid
            exact ih2 id ov (lookupOverlay_append_of_some _ hsome) hid
          · intro id r hmem
            rcases List.mem_cons.mp hmem with hhead | htail
            · obtain ⟨hid, hr⟩ := Prod.mk.injEq .. ▸ hhead
              subst hid
              subst hr
              exact ⟨{ window_handle_value := w, rect := r },
                ih2 _ _ hself hid0, rfl⟩
            · exact ih3 id r htail
          · intro hovnd
            refine ih4 ?_
            rw [List.map_append]
            simp only [List.map_cons, List.map_nil]
            rw [List.nodup_append]
            refine ⟨hovnd, List.nodup_singleton _, ?_⟩
            intro a ha hb
            simp only [List.mem_singleton] at hb
            subst hb
            exact ((lookupOverlay_eq_none_iff ovs a).mp hlook) ha
          · intro id hid hnone
            rcases List.mem_cons.mp hid with hh | ht
            · subst hh
              exact ⟨w, by simp⟩
            · have hne : id ≠ id₀ := fun h => hid0 (h ▸ ht)
              have hnone' : lookupOverlay
                  (ovs ++ [(id₀, { window_handle_value := w, rect := r₀ })])
                    id = none :=
                (lookupOverlay_append_single_none _).mpr ⟨hnone, hne⟩
              obtain ⟨hwnd, hmem⟩ := ih5 id ht hnone'
              exact ⟨hwnd, by simp [hmem]⟩
          · intro hwnd hmem
            rcases List.mem_cons.mp hmem with hh | ht
            · obtain ⟨rfl⟩ := WinEvent.created.injEq .. ▸ hh
              exact ⟨id₀, { window_handle_value := w, rect := r₀ },
                ih2 _ _ hself hid0, rfl⟩
            · exact ih6 hwnd ht
          · intro hwnd hmem
            rcases List.mem_cons.mp hmem with hh | ht
            · exact WinEvent.noConfusion hh
            · exact ih7 hwnd ht
      case _ e cevs hc =>
        simp at heq

end Overlay

/-- Helper for the message pump: appending WM_QUIT to the queue makes the
pump terminate, dispatching exactly the messages before the first WM_QUIT. -/
theorem pump_messages_post_quit (queue : List Nat) :
    WinLib.pump_messages (WinLib.post_quit_message queue) =
      some (queue.takeWhile fun msg => msg != WM_QUIT) := by
  induction queue with
  | nil => rfl
  | cons msg rest ihq =>
    by_cases hm : msg = WM_QUIT
    · subst hm
      simp [WinLib.post_quit_message, WinLib.pump_messages]
    · simp only [WinLib.post_quit_message, List.cons_append] at ihq ⊢
      rw [WinLib.pump_messages, if_neg hm, ihq]
      simp [List.takeWhile_cons, hm]

/-- C7: the particle/trail math is an empty stub: TrailEngine::update
returns the engine unchanged for every state and dt — in particular the
config field is untouched — and, being a pure function, has no other
effect. -/
theorem trail_engine_update_stub (engine : Core.TrailEngine) (dt : Float) :
    Core.TrailEngine.update engine dt = engine ∧
    (Core.TrailEngine.update engine dt).config = engine.config :=
  ⟨rfl, rfl⟩

/-- C7 witness: the stub theorem evaluated on the default engine and a
concrete dt. -/
theorem trail_engine_update_stub_witness :
    Core.TrailEngine.update (Core.TrailEngine.new Core.EngineConfig.default)
      0.016 = Core.TrailEngine.new Core.EngineConfig.default ∧
    (Core.TrailEngine.update (Core.TrailEngine.new Core.EngineConfig.default)
      0.016).config = (Core.TrailEngine.new Core.EngineConfig.default).config :=
  trail_engine_update_stub (Core.TrailEngine.new Core.EngineConfig.default)
    0.016

/-- C8: refresh_overlays is atomic when EnumDisplayMonitors reports
failure: the call returns the error, performs no window creation,
repositioning or destruction (empty event trace), and leaves the manager —
overlays map and monitor_rects included — exactly as before. -/
theorem refresh_overlays_atomic_enum_failure (env : Overlay.WinEnv)
    (m : Overlay.WinOverlayManager) (henum : env.enumOk = false) :
    (Overlay.refresh_overlays env m).result =
      .error "EnumDisplayMonitors failed" ∧
    (Overlay.refresh_overlays env m).state = m ∧
    (Overlay.refresh_overlays env m).events = [] := by
  refine ⟨?_, ?_, ?_⟩ <;>
    simp [Overlay.refresh_overlays, Overlay.enumerate_monitors, henum]

/-- C8 witness: the atomicity theorem evaluated on a concrete failing
environment and a concrete manager state. -/
theorem refresh_overlays_atomic_enum_failure_witness :
    envEnumFail.enumOk = false ∧
    ((Overlay.refresh_overlays envEnumFail mgrStale).result =
        .error "EnumDisplayMonitors failed" ∧
      (Overlay.refresh_overlays envEnumFail mgrStale).state = mgrStale ∧
      (Overlay.refresh_overlays envEnumFail mgrStale).events = []) :=
  ⟨rfl, refresh_overlays_atomic_enum_failure envEnumFail mgrStale rfl⟩

/-- C9: teardown_overlays (and destroy_overlays, which merely calls it)
always returns Ok, empties the overlays map and monitor_rects — so a
subsequent monitors() returns Ok [] — and is idempotent: a second call
destroys nothing and yields the same empty state. -/
theorem teardown_overlays_spec (m : Overlay.WinOverlayManager) :
    (Overlay.teardown_overlays m).result = .ok () ∧
    Overlay.WinOverlayManager.destroy_overlays m = Overlay.teardown_overlays m ∧
    (Overlay.teardown_overlays m).state.overlays = [] ∧
    (Overlay.teardown_overlays m).state.monitor_rects = [] ∧
    Overlay.WinOverlayManager.monitors (Overlay.teardown_overlays m).state =
      .ok [] ∧
    (Overlay.teardown_overlays (Overlay.teardown_overlays m).state).events = [] ∧
    (Overlay.teardown_overlays (Overlay.teardown_overlays m).state).state =
      (Overlay.teardown_overlays m).state :=
  ⟨rfl, rfl, rfl, rfl, rfl, rfl, rfl⟩

/-- C9 witness: the teardown theorem evaluated on the manager tracking two
overlays. -/
theorem teardown_overlays_spec_witness :
    (Overlay.teardown_overlays mgrStale).result = .ok () ∧
    Overlay.WinOverlayManager.destroy_overlays mgrStale =
      Overlay.teardown_overlays mgrStale ∧
    (Overlay.teardown_overlays mgrStale).state.overlays = [] ∧
    (Overlay.teardown_overlays mgrStale).state.monitor_rects = [] ∧
    Overlay.WinOverlayManager.monitors
      (Overlay.teardown_overlays mgrStale).state = .ok [] ∧
    (Overlay.teardown_overlays
      (Overlay.teardown_overlays mgrStale).state).events = [] ∧
    (Overlay.teardown_overlays
      (Overlay.teardown_overlays mgrStale).state).state =
      (Overlay.teardown_overlays mgrStale).state :=
  teardown_overlays_spec mgrStale

/-- C10: a GetDpiForMonitor failure does not drop the monitor: it is still
reported, with the dpi field falling back to 96, and enumeration continues
over the remaining monitors. -/
theorem dpi_failure_fallback (env : Overlay.WinEnv)
    (front back : List Overlay.EnumEntry) (e : Overlay.EnumEntry) (r : RECT)
    (hok : env.enumOk = true) (hentries : env.entries = front ++ e :: back)
    (hinfo : e.info? = some r) (hdpi : e.dpi? = none) :
    Overlay.enumerate_monitors env =
      .ok (front.filterMap Overlay.enum_proc ++
        (e.handle,
          { x := r.left, y := r.top, width := r.right - r.left,
            height := r.bottom - r.top, dpi := 96 }) ::
        back.filterMap Overlay.enum_proc) := by
  simp [Overlay.enumerate_monitors, hok, hentries, List.filterMap_append,
    List.filterMap_cons, Overlay.enum_proc, hinfo, hdpi]

/-- C10 witness: the fallback theorem evaluated on a concrete environment
whose middle monitor fails the dpi query. -/
theorem dpi_failure_fallback_witness :
    envDpi.enumOk = true ∧
    envDpi.entries = [entryA] ++ entryB :: [entryC] ∧
    entryB.info? = some ⟨1920, 0, 3840, 1080⟩ ∧
    entryB.dpi? = none ∧
    Overlay.enumerate_monitors envDpi =
      .ok ([entryA].filterMap Overlay.enum_proc ++
        (entryB.handle,
          { x := 1920, y := 0, width := 3840 - 1920,
            height := 1080 - 0, dpi := 96 }) ::
        [entryC].filterMap Overlay.enum_proc) :=
  ⟨rfl, rfl, rfl, rfl,
    dpi_failure_fallback envDpi [entryA] [entryC] entryB
      ⟨1920, 0, 3840, 1080⟩ rfl rfl rfl rfl⟩

/-- C5: overlay windows are click-through: both window procedures —
handle_overlay_window_message in overlay.rs and overlay_wnd_proc in
lib.rs — answer WM_NCHITTEST with HTTRANSPARENT, and both return the
DefWindowProcW result for every other message. -/
theorem overlay_click_through (env : Overlay.WinEnv)
    (userdata : Option Overlay.WinOverlayManager) (wparam : Nat) (msg : Nat)
    (hmsg : msg ≠ WM_NCHITTEST) :
    (Overlay.handle_overlay_window_message env userdata
        WM_NCHITTEST wparam).lresult = .value HTTRANSPARENT ∧
    WinLib.overlay_wnd_proc WM_NCHITTEST = .value HTTRANSPARENT ∧
    (Overlay.handle_overlay_window_message env userdata msg wparam).lresult =
      .defWindowProc ∧
    WinLib.overlay_wnd_proc msg = .defWindowProc := by
  refine ⟨rfl, rfl, ?_, ?_⟩
  · unfold Overlay.handle_overlay_window_message
    rw [if_neg hmsg]
    by_cases h2 : msg = WM_DEVICECHANGE ∨ msg = WM_DISPLAYCHANGE ∨
        msg = WM_DPICHANGED ∨ msg = WM_SETTINGCHANGE
    · rw [if_pos h2]
      cases userdata <;> rfl
    · rw [if_neg h2]
      by_cases h3 : msg = WM_DESTROY
      · rw [if_pos h3]
      · rw [if_neg h3]
  · unfold WinLib.overlay_wnd_proc
    rw [if_neg hmsg]

/-- C5 witness: the click-through theorem evaluated at a concrete message
(WM_PAINT, 15) with a concrete environment and a null userdata slot. -/
theorem overlay_click_through_witness :
    (15 : Nat) ≠ WM_NCHITTEST ∧
    ((Overlay.handle_overlay_window_message envGood none
        WM_NCHITTEST 0).lresult = .value HTTRANSPARENT ∧
      WinLib.overlay_wnd_proc WM_NCHITTEST = .value HTTRANSPARENT ∧
      (Overlay.handle_overlay_window_message envGood none 15 0).lresult =
        .defWindowProc ∧
      WinLib.overlay_wnd_proc 15 = .defWindowProc) :=
  ⟨by decide, overlay_click_through envGood none 0 15 (by decide)⟩

/-- C2: on any of WM_DEVICECHANGE, WM_DISPLAYCHANGE, WM_DPICHANGED or
WM_SETTINGCHANGE with a non-null manager pointer in GWLP_USERDATA, the
window procedure invokes handle_environment_change — so the manager ends in
exactly the state refresh_overlays leaves, with refresh's window events —
and then forwards the message to DefWindowProcW. -/
theorem environment_messages_refresh (env : Overlay.WinEnv)
    (m : Overlay.WinOverlayManager) (msg wparam : Nat)
    (hmsg : msg = WM_DEVICECHANGE ∨ msg = WM_DISPLAYCHANGE ∨
      msg = WM_DPICHANGED ∨ msg = WM_SETTINGCHANGE) :
    (Overlay.handle_overlay_window_message env (some m) msg
        wparam).envChangeInvoked = true ∧
    (Overlay.handle_overlay_window_message env (some m) msg wparam).userdata =
      some (Overlay.refresh_overlays env m).state ∧
    (Overlay.handle_overlay_window_message env (some m) msg wparam).events =
      (Overlay.refresh_overlays env m).events ∧
    (Overlay.handle_overlay_window_message env (some m) msg wparam).lresult =
      .defWindowProc := by
  have hne : msg ≠ WM_NCHITTEST := by
    rcases hmsg with h | h | h | h <;> subst h <;> decide
  unfold Overlay.handle_overlay_window_message
  rw [if_neg hne, if_pos hmsg]
  exact ⟨rfl, rfl, rfl, rfl⟩

/-- C2 witness: the environment-message theorem evaluated at
WM_DISPLAYCHANGE with a concrete environment and manager. -/
theorem environment_messages_refresh_witness :
    (WM_DISPLAYCHANGE = WM_DEVICECHANGE ∨ WM_DISPLAYCHANGE = WM_DISPLAYCHANGE ∨
      WM_DISPLAYCHANGE = WM_DPICHANGED ∨ WM_DISPLAYCHANGE = WM_SETTINGCHANGE) ∧
    ((Overlay.handle_overlay_window_message envGood (some mgrStale)
        WM_DISPLAYCHANGE 0).envChangeInvoked = true ∧
      (Overlay.handle_overlay_window_message envGood (some mgrStale)
        WM_DISPLAYCHANGE 0).userdata =
        some (Overlay.refresh_overlays envGood mgrStale).state ∧
      (Overlay.handle_overlay_window_message envGood (some mgrStale)
        WM_DISPLAYCHANGE 0).events =
        (Overlay.refresh_overlays envGood mgrStale).events ∧
      (Overlay.handle_overlay_window_message envGood (some mgrStale)
        WM_DISPLAYCHANGE 0).lresult = .defWindowProc) :=
  ⟨Or.inr (Or.inl rfl),
    environment_messages_refresh envGood mgrStale WM_DISPLAYCHANGE 0
      (Or.inr (Or.inl rfl))⟩

/-- C6: the tray menu holds exactly two enabled items, "Open Settings" and
"Exit", bound to the returned settings and exit ids; the settings item and
a left click on the tray icon send UiCommand::Show on the UI command
channel; the exit item posts a quit message, and the run_app pump then
terminates at the next WM_QUIT in the queue. -/
theorem tray_menu_behaviour (item : WinLib.MenuItemM)
    (hitem : item ∈ WinLib.create_tray_icon.1) (queue : List Nat)
    (channel : List Ui.UiCommand) :
    WinLib.create_tray_icon.1.length = 2 ∧
    item.enabled = true ∧
    WinLib.create_tray_icon.1.map WinLib.MenuItemM.label =
      ["Open Settings", "Exit"] ∧
    WinLib.create_tray_icon.1.map WinLib.MenuItemM.id =
      [WinLib.create_tray_icon.2.1, WinLib.create_tray_icon.2.2] ∧
    WinLib.menu_event_action WinLib.create_tray_icon.2.1
      WinLib.create_tray_icon.2.2 WinLib.create_tray_icon.2.1 = .sendUiShow ∧
    WinLib.menu_event_action WinLib.create_tray_icon.2.1
      WinLib.create_tray_icon.2.2 WinLib.create_tray_icon.2.2 = .postQuit ∧
    WinLib.tray_icon_event_action (.Click .Left) = .sendUiShow ∧
    WinLib.show_ui channel = channel ++ [Ui.UiCommand.Show] ∧
    WinLib.pump_messages (WinLib.post_quit_message queue) =
      some (queue.takeWhile fun msg => msg != WM_QUIT) := by
  refine ⟨rfl, ?_, rfl, rfl, rfl, rfl, rfl, rfl,
    pump_messages_post_quit queue⟩
  simp only [WinLib.create_tray_icon, List.mem_cons, List.not_mem_nil,
    or_false] at hitem
  rcases hitem with h | h <;> subst h <;> rfl

/-- C1: a successful refresh_overlays reconciles the overlay map with the
current enumeration: afterwards the map holds exactly one overlay per
enumerated monitor — keyed by the monitor handle, with no duplicate keys,
and storing that monitor's rect — a DestroyWindow was issued for every
overlay whose monitor is absent from the enumeration, and a window was
created for every monitor that had no overlay. -/
theorem refresh_overlays_reconciles (env : Overlay.WinEnv)
    (m : Overlay.WinOverlayManager) (monitors : List (Int × MonitorRect))
    (hpre : (m.overlays.map Prod.fst).Nodup)
    (henum : Overlay.enumerate_monitors env = .ok monitors)
    (hmnd : (monitors.map Prod.fst).Nodup)
    (hok : (Overlay.refresh_overlays env m).result = .ok ()) :
    (∀ id, (∃ ov, Overlay.lookupOverlay
        (Overlay.refresh_overlays env m).state.overlays id = some ov) ↔
      id ∈ monitors.map Prod.fst) ∧
    (∀ id r ov, (id, r) ∈ monitors →
      Overlay.lookupOverlay (Overlay.refresh_overlays env m).state.overlays id =
        some ov → ov.rect = r) ∧
    ((Overlay.refresh_overlays env m).state.overlays.map Prod.fst).Nodup ∧
    (∀ id ov, Overlay.lookupOverlay m.overlays id = some ov →
      id ∉ monitors.map Prod.fst →
      Overlay.WinEvent.destroyed ov.window_handle_value ∈
        (Overlay.refresh_overlays env m).events) ∧
    (∀ id, id ∈ monitors.map Prod.fst →
      Overlay.lookupOverlay m.overlays id = none →
      ∃ hwnd, Overlay.WinEvent.created hwnd ∈
        (Overlay.refresh_overlays env m).events) := by
  rcases hrm : Overlay.removeAbsent m.overlays (monitors.map Prod.fst) with
    ⟨ovs1, revs⟩
  rcases hup : Overlay.upsertMonitors env 0 ovs1 monitors with ⟨res, ovs2, uevs⟩
  cases res with
  | error e =>
    have hbad : (Overlay.refresh_overlays env m).result = .error e := by
      simp only [Overlay.refresh_overlays, henum, hrm, hup]
    rw [hbad] at hok
    exact absurd hok (by simp)
  | ok u =>
    cases u
    have hre : Overlay.refresh_overlays env m =
        { result := .ok ()
          state := { m with overlays := ovs2,
                            monitor_rects := monitors.map Prod.snd }
          events := revs ++ uevs } := by
      simp only [Overlay.refresh_overlays, henum, hrm, hup]
    have hlook1 : ∀ k, Overlay.lookupOverlay ovs1 k =
        if k ∈ monitors.map Prod.fst then Overlay.lookupOverlay m.overlays k
        else none := by
      intro k
      have h := Overlay.removeAbsent_lookup m.overlays (monitors.map Prod.fst) k
      rw [hrm] at h
      exact h
    have hnd1 : (ovs1.map Prod.fst).Nodup := by
      have h := Overlay.removeAbsent_nodup (monitors.map Prod.fst) hpre
      rw [hrm] at h
      exact h
    obtain ⟨s1, s2, s3, s4, s5, s6, s7⟩ :=
      Overlay.upsertMonitors_ok_spec env monitors 0 ovs1 ovs2 uevs hmnd hup
    simp only [hre]
    refine ⟨?_, ?_, ?_, ?_, ?_⟩
    · intro id
      constructor
      · rintro ⟨ov, hov⟩
        by_contra hid
        have hnone : Overlay.lookupOverlay ovs2 id = none :=
          (s1 id).mpr ⟨by rw [hlook1 id, if_neg hid], hid⟩
        rw [hnone] at hov
        exact Option.noConfusion hov
      · intro hid
        rcases List.mem_map.mp hid with ⟨⟨id', r⟩, hp, rfl⟩
        obtain ⟨ov, hov, -⟩ := s3 id' r hp
        exact ⟨ov, hov⟩
    · intro id r ov hmem hov
      obtain ⟨ov', hov', hrect⟩ := s3 id r hmem
      rw [hov] at hov'
      injection hov' with h
      rw [h]
      exact hrect
    · exact s4 hnd1
    · intro id ov hsome hid
      have hmem : (id, ov) ∈ m.overlays := Overlay.lookupOverlay_mem hsome
      have hdest := Overlay.removeAbsent_destroyed_mem hmem hid
      rw [hrm] at hdest
      exact List.mem_append_left _ hdest
    · intro id hid hnone
      have h1 : Overlay.lookupOverlay ovs1 id = none := by
        rw [hlook1 id, if_pos hid]
        exact hnone
      obtain ⟨hwnd, hwmem⟩ := s5 id hid h1
      exact ⟨hwnd, List.mem_append_right _ hwmem⟩

/-- C1 witness: the reconciliation theorem evaluated on a two-display
environment and a manager holding one live and one stale overlay. -/
theorem refresh_overlays_reconciles_witness :
    (mgrStale.overlays.map Prod.fst).Nodup ∧
    Overlay.enumerate_monitors envGood = .ok monitorsW ∧
    (monitorsW.map Prod.fst).Nodup ∧
    (Overlay.refresh_overlays envGood mgrStale).result = .ok () ∧
    ((∀ id, (∃ ov, Overlay.lookupOverlay
        (Overlay.refresh_overlays envGood mgrStale).state.overlays id =
          some ov) ↔ id ∈ monitorsW.map Prod.fst) ∧
      (∀ id r ov, (id, r) ∈ monitorsW →
        Overlay.lookupOverlay
          (Overlay.refresh_overlays envGood mgrStale).state.overlays id =
          some ov → ov.rect = r) ∧
      ((Overlay.refresh_overlays envGood
        mgrStale).state.overlays.map Prod.fst).Nodup ∧
      (∀ id ov, Overlay.lookupOverlay mgrStale.overlays id = some ov →
        id ∉ monitorsW.map Prod.fst →
        Overlay.WinEvent.destroyed ov.window_handle_value ∈
          (Overlay.refresh_overlays envGood mgrStale).events) ∧
      (∀ id, id ∈ monitorsW.map Prod.fst →
        Overlay.lookupOverlay mgrStale.overlays id = none →
        ∃ hwnd, Overlay.WinEvent.created hwnd ∈
          (Overlay.refresh_overlays envGood mgrStale).events)) :=
  ⟨by decide, rfl, by decide, rfl,
    refresh_overlays_reconciles envGood mgrStale monitorsW
      (by decide) rfl (by decide) rfl⟩

/-- C3 counterexample: with SetWindowPos failing right after a successful
CreateWindowExW, refresh_overlays records the creation of window 42,
returns an error with the overlays map still empty — handle 42 is neither
tracked nor ever destroyed, so the claim as stated is false. -/
theorem refresh_overlays_leak_counterexample :
    Overlay.WinEvent.created 42 ∈
      (Overlay.refresh_overlays envLeak mgr0).events ∧
    (Overlay.refresh_overlays envLeak mgr0).state.overlays = [] ∧
    Overlay.WinEvent.destroyed 42 ∉
      (Overlay.refresh_overlays envLeak mgr0).events := by
  decide

/-- C3 amended: teardown_overlays destroys every tracked overlay and leaves
the map empty, refresh_overlays destroys every overlay it removes for a
monitor missing from the enumeration, and on a refresh that returns Ok
every window handle created during the call is tracked in the overlays map.
The one exception to the original claim is a refresh in which window setup
fails between CreateWindowExW and insertion (SetWindowPos or
SetLayeredWindowAttributes failing on the fresh window): that refresh
returns an error and the fresh handle is leaked. -/
theorem overlay_no_leak_amended (env : Overlay.WinEnv)
    (m : Overlay.WinOverlayManager) (monitors : List (Int × MonitorRect))
    (henum : Overlay.enumerate_monitors env = .ok monitors)
    (hmnd : (monitors.map Prod.fst).Nodup)
    (hok : (Overlay.refresh_overlays env m).result = .ok ()) :
    (Overlay.teardown_overlays m).state.overlays = [] ∧
    (∀ p ∈ m.overlays, Overlay.WinEvent.destroyed p.2.window_handle_value ∈
      (Overlay.teardown_overlays m).events) ∧
    (∀ id ov, Overlay.lookupOverlay m.overlays id = some ov →
      id ∉ monitors.map Prod.fst →
      Overlay.WinEvent.destroyed ov.window_handle_value ∈
        (Overlay.refresh_overlays env m).events) ∧
    (∀ hwnd, Overlay.WinEvent.created hwnd ∈
        (Overlay.refresh_overlays env m).events →
      ∃ id ov, Overlay.lookupOverlay
          (Overlay.refresh_overlays env m).state.overlays id = some ov ∧
        ov.window_handle_value = hwnd) := by
  rcases hrm : Overlay.removeAbsent m.overlays (monitors.map Prod.fst) with
    ⟨ovs1, revs⟩
  rcases hup : Overlay.upsertMonitors env 0 ovs1 monitors with ⟨res, ovs2, uevs⟩
  cases res with
  | error e =>
    have hbad : (Overlay.refresh_overlays env m).result = .error e := by
      simp only [Overlay.refresh_overlays, henum, hrm, hup]
    rw [hbad] at hok
    exact absurd hok (by simp)
  | ok u =>
    cases u
    have hre : Overlay.refresh_overlays env m =
        { result := .ok ()
          state := { m with overlays := ovs2,
                            monitor_rects := monitors.map Prod.snd }
          events := revs ++ uevs } := by
      simp only [Overlay.refresh_overlays, henum, hrm, hup]
    obtain ⟨s1, s2, s3, s4, s5, s6, s7⟩ :=
      Overlay.upsertMonitors_ok_spec env monitors 0 ovs1 ovs2 uevs hmnd hup
    refine ⟨rfl, ?_, ?_, ?_⟩
    · intro p hp
      exact List.mem_flatMap.mpr ⟨p, hp, by simp [Overlay.destroy_overlay]⟩
    · intro id ov hsome hid
      have hmem : (id, ov) ∈ m.overlays := Overlay.lookupOverlay_mem hsome
      have hdest := Overlay.removeAbsent_destroyed_mem hmem hid
      rw [hrm] at hdest
      simp only [hre]
      exact List.mem_append_left _ hdest
    · intro hwnd hmem
      simp only [hre] at hmem ⊢
      rcases List.mem_append.mp hmem with hr | hu
      · have hin : Overlay.WinEvent.created hwnd ∈
            (Overlay.removeAbsent m.overlays (monitors.map Prod.fst)).2 := by
          rw [hrm]
          exact hr
        obtain ⟨h', heq⟩ := Overlay.removeAbsent_events_destroyed hin
        exact Overlay.WinEvent.noConfusion heq
      · exact s6 hwnd hu

/-- C3 amended witness: the amended theorem evaluated on the two-display
environment and the stale-overlay manager. -/
theorem overlay_no_leak_amended_witness :
    Overlay.enumerate_monitors envGood = .ok monitorsW ∧
    (monitorsW.map Prod.fst).Nodup ∧
    (Overlay.refresh_overlays envGood mgrStale).result = .ok () ∧
    ((Overlay.teardown_overlays mgrStale).state.overlays = [] ∧
      (∀ p ∈ mgrStale.overlays,
        Overlay.WinEvent.destroyed p.2.window_handle_value ∈
          (Overlay.teardown_overlays mgrStale).events) ∧
      (∀ id ov, Overlay.lookupOverlay mgrStale.overlays id = some ov →
        id ∉ monitorsW.map Prod.fst →
        Overlay.WinEvent.destroyed ov.window_handle_value ∈
          (Overlay.refresh_overlays envGood mgrStale).events) ∧
      (∀ hwnd, Overlay.WinEvent.created hwnd ∈
          (Overlay.refresh_overlays envGood mgrStale).events →
        ∃ id ov, Overlay.lookupOverlay
            (Overlay.refresh_overlays envGood mgrStale).state.overlays id =
            some ov ∧ ov.window_handle_value = hwnd)) :=
  ⟨rfl, by decide, rfl,
    overlay_no_leak_amended envGood mgrStale monitorsW rfl (by decide) rfl⟩

/-- C4 counterexample: with two attached displays, the crate-root
WinOverlayManager::monitors (the implementation main uses) still returns a
single desktop-window-sized rect — not one MonitorRect per attached
physical display (1 ≠ 2). -/
theorem stub_monitors_counterexample :
    envGood.entries.length = 2 ∧
    WinLib.WinOverlayManager.monitors desktopC4 =
      .ok [{ x := 0, y := 0, width := 1920, height := 1080, dpi := 96 }] ∧
    [({ x := 0, y := 0, width := 1920, height := 1080, dpi := 96 } :
      MonitorRect)].length ≠ envGood.entries.length :=
  ⟨rfl, rfl, by decide⟩

/-- C4 amended: the two monitors() implementations behave as the claim's
parentheticals describe: the crate-root stub returns exactly one
desktop-window-sized rect at origin (0,0) with dpi 96 regardless of the
attached displays, and the reconciling manager returns the rects captured
by the most recent successful refresh, one per enumerated monitor in
enumeration order. -/
theorem monitors_amended (desktop : RECT) (env : Overlay.WinEnv)
    (m : Overlay.WinOverlayManager) (monitors : List (Int × MonitorRect))
    (henum : Overlay.enumerate_monitors env = .ok monitors)
    (hok : (Overlay.refresh_overlays env m).result = .ok ()) :
    WinLib.WinOverlayManager.monitors desktop =
      .ok [{ x := 0, y := 0, width := desktop.right - desktop.left,
             height := desktop.bottom - desktop.top, dpi := 96 }] ∧
    Overlay.WinOverlayManager.monitors (Overlay.refresh_overlays env m).state =
      .ok (monitors.map Prod.snd) := by
  refine ⟨rfl, ?_⟩
  rcases hrm : Overlay.removeAbsent m.overlays (monitors.map Prod.fst) with
    ⟨ovs1, revs⟩
  rcases hup : Overlay.upsertMonitors env 0 ovs1 monitors with ⟨res, ovs2, uevs⟩
  cases res with
  | error e =>
    have hbad : (Overlay.refresh_overlays env m).result = .error e := by
      simp only [Overlay.refresh_overlays, henum, hrm, hup]
    rw [hbad] at hok
    exact absurd hok (by simp)
  | ok u =>
    cases u
    have hre : Overlay.refresh_overlays env m =
        { result := .ok ()
          state := { m with overlays := ovs2,
                            monitor_rects := monitors.map Prod.snd }
          events := revs ++ uevs } := by
      simp only [Overlay.refresh_overlays, henum, hrm, hup]
    simp only [hre, Overlay.WinOverlayManager.monitors]

/-- C4 amended witness: the amended monitors theorem evaluated on the
concrete desktop rectangle, environment and manager. -/
theorem monitors_amended_witness :
    Overlay.enumerate_monitors envGood = .ok monitorsW ∧
    (Overlay.refresh_overlays envGood mgrStale).result = .ok () ∧
    (WinLib.WinOverlayManager.monitors desktopC4 =
      .ok [{ x := 0, y := 0, width := desktopC4.right - desktopC4.left,
             height := desktopC4.bottom - desktopC4.top, dpi := 96 }] ∧
    Overlay.WinOverlayManager.monitors
        (Overlay.refresh_overlays envGood mgrStale).state =
      .ok (monitorsW.map Prod.snd)) :=
  ⟨rfl, rfl, monitors_amended desktopC4 envGood mgrStale monitorsW rfl rfl⟩

/-- C6 witness: the tray theorem evaluated at the settings item, a queue in
which WM_QUIT follows two ordinary messages, and an empty channel. -/
theorem tray_menu_behaviour_witness :
    ({ label := "Open Settings", enabled := true, id := 1 } : WinLib.MenuItemM) ∈
      WinLib.create_tray_icon.1 ∧
    (WinLib.create_tray_icon.1.length = 2 ∧
      ({ label := "Open Settings", enabled := true, id := 1 } :
        WinLib.MenuItemM).enabled = true ∧
      WinLib.create_tray_icon.1.map WinLib.MenuItemM.label =
        ["Open Settings", "Exit"] ∧
      WinLib.create_tray_icon.1.map WinLib.MenuItemM.id =
        [WinLib.create_tray_icon.2.1, WinLib.create_tray_icon.2.2] ∧
      WinLib.menu_event_action WinLib.create_tray_icon.2.1
        WinLib.create_tray_icon.2.2 WinLib.create_tray_icon.2.1 =
        .sendUiShow ∧
      WinLib.menu_event_action WinLib.create_tray_icon.2.1
        WinLib.create_tray_icon.2.2 WinLib.create_tray_icon.2.2 = .postQuit ∧
      WinLib.tray_icon_event_action (.Click .Left) = .sendUiShow ∧
      WinLib.show_ui [] = [] ++ [Ui.UiCommand.Show] ∧
      WinLib.pump_messages (WinLib.post_quit_message [132, 26]) =
        some ([132, 26].takeWhile fun msg => msg != WM_QUIT)) :=
  ⟨by decide,
    tray_menu_behaviour { label := "Open Settings", enabled := true, id := 1 }
      (by decide) [132, 26] []⟩

end Serpentines